import Mathlib

/-!
Verification development for `ytlist.py` (ytlist v1.0.1), a script that
extracts (url, time, title) triples for the videos of a YouTube playlist
page and prints one line per video.

The embedding below models, faithfully to the Python source:
  * JSON values as produced by `json.loads` (`JValue`),
  * the Python exceptions the script can raise (`PyErr`),
  * `json.loads` / `json.dumps` (fuel-based recursive descent, default
    `json.dumps` settings: `ensure_ascii=True`, separators `", "` / `": "`),
  * Python subscription `v[key]` / `v[0]` on loaded JSON values,
  * `str.index`, slicing, and the one specific `re.sub` call of the script,
  * the functions `find_url_blocks`, `parse_block`, `print_data`,
    `print_error` and the driver `main` (modelled from the point where the
    page text has been loaded; network retrieval is an external collaborator).
-/

namespace Ytlist

/-- JSON values, as the Python `json` module materialises them.  Objects keep
their fields in insertion order (CPython dicts preserve insertion order, and
`json.loads` updates the value in place on a duplicate key).  Numbers keep
their source lexeme: no claim of this development touches a numeric field, so
CPython's int/float normalisation is not modelled beyond the lexeme. -/
inductive JValue where
  | null : JValue
  | bool : Bool → JValue
  | num : String → JValue
  | str : String → JValue
  | arr : List JValue → JValue
  | obj : List (String × JValue) → JValue

/-- The Python exceptions observable from the script.  The source defines no
exception classes of its own; these are the builtin exceptions its operations
raise: `str.index` → `ValueError`, `json.loads` → `JSONDecodeError`,
dict subscription with a missing key → `KeyError` (string or int key),
list/str subscription out of range → `IndexError`, subscription of a
non-subscriptable value or `str + non-str` → `TypeError`. -/
inductive PyErr where
  | valueError : String → PyErr
  | jsonDecodeError : PyErr
  | keyError : String → PyErr
  | keyErrorIdx : Nat → PyErr
  | indexError : PyErr
  | typeError : PyErr
deriving DecidableEq

/-- Whitespace accepted between JSON tokens (RFC 8259, also what
`json.loads` skips): space, tab, newline, carriage return. -/
def isJsonWs (c : Char) : Bool :=
  c = ' ' || c = '\t' || c = '\n' || c = '\r'

/-- Drop leading JSON whitespace. -/
def skipWs (cs : List Char) : List Char :=
  cs.dropWhile isJsonWs

/-- Value of a hexadecimal digit. -/
def hexVal (c : Char) : Option Nat :=
  if '0' ≤ c && c ≤ '9' then some (c.toNat - 48)
  else if 'a' ≤ c && c ≤ 'f' then some (c.toNat - 87)
  else if 'A' ≤ c && c ≤ 'F' then some (c.toNat - 55)
  else none

/-- Decode one string escape after a backslash, returning the decoded
character and the remaining input.  `\uXXXX` surrogate pairs are combined
into one scalar; a lone surrogate is rejected (a Lean `Char` cannot hold
one, and no claim exercises that corner). -/
def decodeEsc (cs : List Char) : Option (Char × List Char) :=
  match cs with
  | '"' :: r => some ( '"', r)
  | '\\' :: r => some ( '\\', r)
  | '/' :: r => some ( '/', r)
  | 'b' :: r => some (Char.ofNat 8, r)
  | 'f' :: r => some (Char.ofNat 12, r)
  | 'n' :: r => some ( '\n', r)
  | 'r' :: r => some ( '\r', r)
  | 't' :: r => some ( '\t', r)
  | 'u' :: a :: b :: c :: d :: r =>
    match hexVal a, hexVal b, hexVal c, hexVal d with
    | some va, some vb, some vc, some vd =>
      let n := va * 4096 + vb * 256 + vc * 16 + vd
      if 0xD800 ≤ n && n < 0xDC00 then
        match r with
        | '\\' :: 'u' :: a2 :: b2 :: c2 :: d2 :: r2 =>
          match hexVal a2, hexVal b2, hexVal c2, hexVal d2 with
          | some wa, some wb, some wc, some wd =>
            let m := wa * 4096 + wb * 256 + wc * 16 + wd
            if 0xDC00 ≤ m && m < 0xE000 then
              some (Char.ofNat (0x10000 + (n - 0xD800) * 1024 + (m - 0xDC00)), r2)
            else none
          | _, _, _, _ => none
        | _ => none
      else if 0xDC00 ≤ n && n < 0xE000 then none
      else some (Char.ofNat n, r)
    | _, _, _, _ => none
  | _ => none

/-- Parse the body of a JSON string (the opening quote already consumed).
Unescaped control characters below U+0020 are rejected, as by `json.loads`
with its default `strict=True`.  Fuel bounds the recursion; the callers pass
more fuel than the input length, so it never runs out on a real input. -/
def parseStrBody : Nat → List Char → Option (String × List Char)
  | 0, _ => none
  | fuel + 1, cs =>
    match cs with
    | [] => none
    | c :: rest =>
      if c = '"' then some ("", rest)
      else if c = '\\' then
        match decodeEsc rest with
        | some (ch, r2) =>
          match parseStrBody fuel r2 with
          | some (s, r3) => some (⟨ch :: s.data⟩, r3)
          | none => none
        | none => none
      else if c.toNat < 32 then none
      else
        match parseStrBody fuel rest with
        | some (s, r2) => some (⟨c :: s.data⟩, r2)
        | none => none

/-- Lex the digits prefix of the input. -/
def spanDigits (cs : List Char) : List Char × List Char :=
  cs.span Char.isDigit

/-- Parse a JSON number per the RFC 8259 grammar, keeping its lexeme:
`-? (0 | [1-9][0-9]*) (. [0-9]+)? ([eE][+-]? [0-9]+)?`. -/
def parseNum (cs : List Char) : Option (JValue × List Char) :=
  let (sgn, cs1) :=
    match cs with
    | '-' :: r => ([ '-'], r)
    | _ => ([], cs)
  match cs1 with
  | [] => none
  | c :: r =>
    let intRes : Option (List Char × List Char) :=
      if c = '0' then some ([c], r)
      else if '1' ≤ c && c ≤ '9' then
        let (ds, r2) := spanDigits r
        some (c :: ds, r2)
      else none
    match intRes with
    | none => none
    | some (ip, r2) =>
      let (fp, r3) :=
        match r2 with
        | '.' :: r2a =>
          match spanDigits r2a with
          | ([], _) => ([], r2)
          | (ds, r2b) => ( '.' :: ds, r2b)
        | _ => ([], r2)
      if fp = [] && (match r2 with | '.' :: _ => true | _ => false) then none
      else
        let (ep, r4) :=
          match r3 with
          | e :: r3a =>
            if e = 'e' || e = 'E' then
              let (es, r3b) :=
                match r3a with
                | s :: r3c => if s = '+' || s = '-' then ([s], r3c) else ([], r3a)
                | [] => ([], r3a)
              match spanDigits r3b with
              | ([], _) => (([] : List Char), r3)
              | (ds, r3d) => (e :: (es ++ ds), r3d)
            else ([], r3)
          | [] => ([], r3)
        some (JValue.num ⟨sgn ++ ip ++ fp ++ ep⟩, r4)

/-- Insert a key into an object under construction the way a CPython dict
does: a duplicate key updates the existing slot in place (insertion order of
the first occurrence is kept), a new key is appended. -/
def dictInsert : List (String × JValue) → String → JValue → List (String × JValue)
  | [], k, v => [(k, v)]
  | (k0, v0) :: rest, k, v =>
    if k0 = k then (k0, v) :: rest
    else (k0, v0) :: dictInsert rest k v

mutual

/-- Recursive-descent JSON value, mirroring `json.loads`.  Fuel decreases on
every nested call; every caller supplies more fuel than the input length. -/
def parseValue : Nat → List Char → Option (JValue × List Char)
  | 0, _ => none
  | fuel + 1, cs =>
    match cs with
    | [] => none
    | c :: rest =>
      if c = Char.ofNat 123 then parseObjBody fuel (skipWs rest) [] true
      else if c = '[' then parseArrBody fuel (skipWs rest) [] true
      else if c = '"' then
        match parseStrBody (fuel + 1) rest with
        | some (s, r) => some (JValue.str s, r)
        | none => none
      else if c = 't' then
        match rest with
        | 'r' :: 'u' :: 'e' :: r => some (JValue.bool true, r)
        | _ => none
      else if c = 'f' then
        match rest with
        | 'a' :: 'l' :: 's' :: 'e' :: r => some (JValue.bool false, r)
        | _ => none
      else if c = 'n' then
        match rest with
        | 'u' :: 'l' :: 'l' :: r => some (JValue.null, r)
        | _ => none
      else parseNum cs

/-- Members of an object, after the opening brace (and any whitespace).
`first` is true when no member has been read yet, so that an immediate
closing brace makes an empty object but a trailing comma is rejected. -/
def parseObjBody : Nat → List Char → List (String × JValue) → Bool → Option (JValue × List Char)
  | 0, _, _, _ => none
  | fuel + 1, cs, acc, first =>
    match cs with
    | [] => none
    | c :: rest =>
      if c = Char.ofNat 125 && first then some (JValue.obj acc, rest)
      else if c = '"' then
        match parseStrBody (fuel + 1) rest with
        | some (k, r1) =>
          match skipWs r1 with
          | ':' :: r2 =>
            match parseValue fuel (skipWs r2) with
            | some (v, r3) =>
              let acc2 := dictInsert acc k v
              match skipWs r3 with
              | ',' :: r4 => parseObjBody fuel (skipWs r4) acc2 false
              | d :: r4 =>
                if d = Char.ofNat 125 then some (JValue.obj acc2, r4) else none
              | [] => none
            | none => none
          | _ => none
        | none => none
      else none

/-- Elements of an array, after the opening bracket (and any whitespace). -/
def parseArrBody : Nat → List Char → List JValue → Bool → Option (JValue × List Char)
  | 0, _, _, _ => none
  | fuel + 1, cs, acc, first =>
    match cs with
    | [] => none
    | c :: _ =>
      if c = ']' && first then some (JValue.arr acc.reverse, cs.tail)
      else
        match parseValue fuel cs with
        | some (v, r1) =>
          match skipWs r1 with
          | ',' :: r2 => parseArrBody fuel (skipWs r2) (v :: acc) false
          | ']' :: r2 => some (JValue.arr (v :: acc).reverse, r2)
          | _ => none
        | none => none

end

/-- `json.loads`: parse one JSON document, requiring only whitespace after
the value; any failure raises `json.decoder.JSONDecodeError`. -/
def json_loads (s : String) : Except PyErr JValue :=
  match parseValue (2 * s.length + 2) (skipWs s.data) with
  | some (v, rest) =>
    if skipWs rest = [] then Except.ok v else Except.error PyErr.jsonDecodeError
  | none => Except.error PyErr.jsonDecodeError

/-- Four lowercase hex digits, as in a `\uXXXX` escape emitted by
`json.dumps`. -/
def hex4 (n : Nat) : String :=
  let dig := fun (k : Nat) =>
    if k < 10 then Char.ofNat (48 + k) else Char.ofNat (87 + k)
  ⟨[dig (n / 4096 % 16), dig (n / 256 % 16), dig (n / 16 % 16), dig (n % 16)]⟩

/-- Escape one character the way `json.dumps` does with its default
`ensure_ascii=True`: quote, backslash and the short control escapes get a
backslash form, every other character outside printable ASCII becomes
`\uXXXX` (a surrogate pair for astral characters). -/
def escChar (c : Char) : String :=
  if c = '"' then "\\\""
  else if c = '\\' then "\\\\"
  else if c = '\n' then "\\n"
  else if c = '\r' then "\\r"
  else if c = '\t' then "\\t"
  else if c = Char.ofNat 8 then "\\b"
  else if c = Char.ofNat 12 then "\\f"
  else if c.toNat < 32 || 126 < c.toNat then
    if c.toNat < 0x10000 then "\\u" ++ hex4 c.toNat
    else
      let m := c.toNat - 0x10000
      "\\u" ++ hex4 (0xD800 + m / 1024) ++ "\\u" ++ hex4 (0xDC00 + m % 1024)
  else String.singleton c

/-- Serialise a string literal as `json.dumps` does. -/
def dumpStr (s : String) : String :=
  "\"" ++ String.join (s.data.map escChar) ++ "\""

mutual

/-- `json.dumps` with the script's (default) settings.  Default separators
of the Python encoder: `", "` between items, `": "` after a key. -/
def json_dumps : JValue → String
  | JValue.null => "null"
  | JValue.bool true => "true"
  | JValue.bool false => "false"
  | JValue.num lex => lex
  | JValue.str s => dumpStr s
  | JValue.arr xs => "[" ++ dumpsItems xs ++ "]"
  | JValue.obj fs => "\x7b" ++ dumpsFields fs ++ "\x7d"
termination_by structural v => v

/-- Array items, comma-space separated. -/
def dumpsItems : List JValue → String
  | [] => ""
  | [x] => json_dumps x
  | x :: y :: xs => json_dumps x ++ ", " ++ dumpsItems (y :: xs)
termination_by structural l => l

/-- Object members, comma-space separated, colon-space after the key. -/
def dumpsFields : List (String × JValue) → String
  | [] => ""
  | [(k, v)] => dumpStr k ++ ": " ++ json_dumps v
  | (k, v) :: f :: fs => dumpStr k ++ ": " ++ json_dumps v ++ ", " ++ dumpsFields (f :: fs)
termination_by structural l => l

end

mutual

/-- Decide equality of JSON values. -/
def jdec : (a b : JValue) → Decidable (a = b)
  | JValue.null, JValue.null => isTrue rfl
  | JValue.null, JValue.bool _ => isFalse (fun h => JValue.noConfusion h)
  | JValue.null, JValue.num _ => isFalse (fun h => JValue.noConfusion h)
  | JValue.null, JValue.str _ => isFalse (fun h => JValue.noConfusion h)
  | JValue.null, JValue.arr _ => isFalse (fun h => JValue.noConfusion h)
  | JValue.null, JValue.obj _ => isFalse (fun h => JValue.noConfusion h)
  | JValue.bool _, JValue.null => isFalse (fun h => JValue.noConfusion h)
  | JValue.bool a, JValue.bool b =>
    if h : a = b then isTrue (by rw [h]) else isFalse (fun hh => h (by cases hh; rfl))
  | JValue.bool _, JValue.num _ => isFalse (fun h => JValue.noConfusion h)
  | JValue.bool _, JValue.str _ => isFalse (fun h => JValue.noConfusion h)
  | JValue.bool _, JValue.arr _ => isFalse (fun h => JValue.noConfusion h)
  | JValue.bool _, JValue.obj _ => isFalse (fun h => JValue.noConfusion h)
  | JValue.num _, JValue.null => isFalse (fun h => JValue.noConfusion h)
  | JValue.num _, JValue.bool _ => isFalse (fun h => JValue.noConfusion h)
  | JValue.num a, JValue.num b =>
    if h : a = b then isTrue (by rw [h]) else isFalse (fun hh => h (by cases hh; rfl))
  | JValue.num _, JValue.str _ => isFalse (fun h => JValue.noConfusion h)
  | JValue.num _, JValue.arr _ => isFalse (fun h => JValue.noConfusion h)
  | JValue.num _, JValue.obj _ => isFalse (fun h => JValue.noConfusion h)
  | JValue.str _, JValue.null => isFalse (fun h => JValue.noConfusion h)
  | JValue.str _, JValue.bool _ => isFalse (fun h => JValue.noConfusion h)
  | JValue.str _, JValue.num _ => isFalse (fun h => JValue.noConfusion h)
  | JValue.str a, JValue.str b =>
    if h : a = b then isTrue (by rw [h]) else isFalse (fun hh => h (by cases hh; rfl))
  | JValue.str _, JValue.arr _ => isFalse (fun h => JValue.noConfusion h)
  | JValue.str _, JValue.obj _ => isFalse (fun h => JValue.noConfusion h)
  | JValue.arr _, JValue.null => isFalse (fun h => JValue.noConfusion h)
  | JValue.arr _, JValue.bool _ => isFalse (fun h => JValue.noConfusion h)
  | JValue.arr _, JValue.num _ => isFalse (fun h => JValue.noConfusion h)
  | JValue.arr _, JValue.str _ => isFalse (fun h => JValue.noConfusion h)
  | JValue.arr a, JValue.arr b =>
    match jdecL a b with
    | isTrue h => isTrue (by rw [h])
    | isFalse h => isFalse (fun hh => h (by cases hh; rfl))
  | JValue.arr _, JValue.obj _ => isFalse (fun h => JValue.noConfusion h)
  | JValue.obj _, JValue.null => isFalse (fun h => JValue.noConfusion h)
  | JValue.obj _, JValue.bool _ => isFalse (fun h => JValue.noConfusion h)
  | JValue.obj _, JValue.num _ => isFalse (fun h => JValue.noConfusion h)
  | JValue.obj _, JValue.str _ => isFalse (fun h => JValue.noConfusion h)
  | JValue.obj _, JValue.arr _ => isFalse (fun h => JValue.noConfusion h)
  | JValue.obj a, JValue.obj b =>
    match jdecF a b with
    | isTrue h => isTrue (by rw [h])
    | isFalse h => isFalse (fun hh => h (by cases hh; rfl))
termination_by structural a => a

/-- Decide equality of JSON value lists. -/
def jdecL : (a b : List JValue) → Decidable (a = b)
  | [], [] => isTrue rfl
  | [], _ :: _ => isFalse (fun h => List.noConfusion h)
  | _ :: _, [] => isFalse (fun h => List.noConfusion h)
  | x :: xs, y :: ys =>
    match jdec x y with
    | isTrue h1 =>
      match jdecL xs ys with
      | isTrue h2 => isTrue (by rw [h1, h2])
      | isFalse h2 => isFalse (fun hh => h2 (by cases hh; rfl))
    | isFalse h1 => isFalse (fun hh => h1 (by cases hh; rfl))
termination_by structural a => a

/-- Decide equality of JSON object field lists. -/
def jdecF : (a b : List (String × JValue)) → Decidable (a = b)
  | [], [] => isTrue rfl
  | [], _ :: _ => isFalse (fun h => List.noConfusion h)
  | _ :: _, [] => isFalse (fun h => List.noConfusion h)
  | (k, v) :: xs, (l, w) :: ys =>
    if hk : k = l then
      match jdec v w with
      | isTrue h1 =>
        match jdecF xs ys with
        | isTrue h2 => isTrue (by rw [hk, h1, h2])
        | isFalse h2 => isFalse (fun hh => h2 (by cases hh; rfl))
      | isFalse h1 => isFalse (fun hh => h1 (by cases hh; rfl))
    else isFalse (fun hh => hk (by cases hh; rfl))
termination_by structural a => a

end

instance : DecidableEq JValue := jdec

instance {ε α : Type} [DecidableEq ε] [DecidableEq α] : DecidableEq (Except ε α) :=
  fun a b =>
    match a, b with
    | Except.error e, Except.error f =>
      if h : e = f then isTrue (by rw [h]) else isFalse (fun hh => h (by cases hh; rfl))
    | Except.error _, Except.ok _ => isFalse (fun h => Except.noConfusion h)
    | Except.ok _, Except.error _ => isFalse (fun h => Except.noConfusion h)
    | Except.ok x, Except.ok y =>
      if h : x = y then isTrue (by rw [h]) else isFalse (fun hh => h (by cases hh; rfl))

/-! Python string primitives used by `find_url_blocks`. -/

/-- Index of the first occurrence of `need` in `hay`, as `str.find` computes
it (and `str.index` raises on `none`). -/
def findFirstIdx (hay need : List Char) : Option Nat :=
  match hay with
  | [] => if need = [] then some 0 else none
  | _ :: t =>
    if need.isPrefixOf hay then some 0
    else (findFirstIdx t need).map (fun i => i + 1)

/-- `str.index`: first occurrence of a substring, `ValueError` when absent. -/
def strIndex (s sub : String) : Except PyErr Nat :=
  match findFirstIdx s.data sub.data with
  | some i => Except.ok i
  | none => Except.error (PyErr.valueError ("substring not found"))

/-- Python slicing `s[i:j]` for nonnegative bounds: characters from `i` up to
but excluding `j`, empty when `j ≤ i`, clamped at the ends. -/
def pySlice (s : String) (i j : Nat) : String :=
  ⟨(s.data.take j).drop i⟩

/-- Whitespace for the regex class `\s` (the ASCII part; the script's inputs
contain no exotic Unicode whitespace). -/
def isPyWs (c : Char) : Bool :=
  c = ' ' || c = '\t' || c = '\n' || c = '\r' || c = Char.ofNat 11 || c = Char.ofNat 12

/-- Drop trailing `\s` whitespace. -/
def dropTrailingWs (cs : List Char) : List Char :=
  (cs.reverse.dropWhile isPyWs).reverse

/-- The head of the embedded-state assignment, `window["ytInitialData"] = `,
as matched by the prefix of the script's regex. -/
def assignHead : String := "window[\"ytInitialData\"] = "

/-- The embedded-state assignment marker searched by the first `str.index`. -/
def ytDataMarker : String := "window[\"ytInitialData\"]"

/-- The next-assignment marker searched by the second `str.index`. -/
def ytPlayerMarker : String := "window[\"ytInitialPlayerResponse\"]"

/-- Models the script's call
`re.sub(r'^window\["ytInitialData"\] = (.+);\s*$', r'\1', data_body)`.
Without `re.MULTILINE`, `^` anchors at the start of the string and `$` at its
end; `.` does not match a newline, so the captured group is a newline-free
run after the assignment head; `(.+)` is greedy, `;` follows it and `\s*$`
forces everything after that semicolon to be whitespace.  At most one
semicolon can satisfy that (a later valid semicolon would have to sit inside
the whitespace tail of an earlier one), so the match, when it exists, strips
the assignment head, the final semicolon and the trailing whitespace, and
`re.sub` replaces the whole string by the captured group.  With no match,
`re.sub` returns the string unchanged. -/
def reSubYtInitialData (s : String) : String :=
  let trimmed := dropTrailingWs s.data
  if assignHead.data.isPrefixOf trimmed then
    let rest := trimmed.drop assignHead.length
    match rest.getLast? with
    | some ';' =>
      let content := rest.dropLast
      if content ≠ [] && !content.contains '\n' then ⟨content⟩ else s
    | _ => s
  else s

/-- The format-locating half of `find_url_blocks` (source lines 67–72):
find both markers, slice the document between them, strip the assignment
with `re.sub`, and parse the remainder with `json.loads`. -/
def locateJson (text : String) : Except PyErr JValue := do
  let i1 ← strIndex text ytDataMarker
  let i2 ← strIndex text ytPlayerMarker
  json_loads (reSubYtInitialData (pySlice text i1 i2))

/-! Python subscription on loaded JSON values. -/

/-- Look a key up in a loaded JSON object (field lists never hold duplicate
keys, since `dictInsert` updates in place). -/
def lookupDict : List (String × JValue) → String → Option JValue
  | [], _ => none
  | (k0, v0) :: rest, k => if k0 = k then some v0 else lookupDict rest k

/-- Python subscription `v[key]` with a string key: a dict looks the key up
(`KeyError` when absent); a list or a string rejects a string index with
`TypeError`; `None`, booleans and numbers are not subscriptable. -/
def subK (v : JValue) (k : String) : Except PyErr JValue :=
  match v with
  | JValue.obj fs =>
    match lookupDict fs k with
    | some x => Except.ok x
    | none => Except.error (PyErr.keyError k)
  | JValue.arr _ => Except.error PyErr.typeError
  | JValue.str _ => Except.error PyErr.typeError
  | _ => Except.error PyErr.typeError

/-- Python subscription `v[i]` with a nonnegative int: a list yields the
element (`IndexError` out of range); a string yields a one-character string;
a dict raises `KeyError` for the int key; the rest are not subscriptable. -/
def subI (v : JValue) (i : Nat) : Except PyErr JValue :=
  match v with
  | JValue.arr xs =>
    match xs.get? i with
    | some x => Except.ok x
    | none => Except.error PyErr.indexError
  | JValue.str s =>
    match s.data.get? i with
    | some c => Except.ok (JValue.str ⟨[c]⟩)
    | none => Except.error PyErr.indexError
  | JValue.obj _ => Except.error (PyErr.keyErrorIdx i)
  | _ => Except.error PyErr.typeError

/-- The fixed key/index navigation of `find_url_blocks` (source lines
73–87): contents → twoColumnBrowseResultsRenderer → tabs → [0] →
tabRenderer → content → sectionListRenderer → contents → [0] →
itemSectionRenderer → contents → [0] → playlistVideoListRenderer →
contents. -/
def navigateVideoList (j : JValue) : Except PyErr JValue := do
  let a ← subK j ("contents")
  let b ← subK a ("twoColumnBrowseResultsRenderer")
  let c ← subK b ("tabs")
  let d ← subI c 0
  let e ← subK d ("tabRenderer")
  let f ← subK e ("content")
  let g ← subK f ("sectionListRenderer")
  let h ← subK g ("contents")
  let i ← subI h 0
  let j1 ← subK i ("itemSectionRenderer")
  let j2 ← subK j1 ("contents")
  let j3 ← subI j2 0
  let j4 ← subK j3 ("playlistVideoListRenderer")
  subK j4 ("contents")

/-- Python iteration over the navigated value, as `map(json.dumps, ...)`
consumes it: a list yields its elements, a dict its keys, a string its
characters (one-character strings); other values raise `TypeError` when the
`for` loop starts.  (Python's `map` is lazy, so that `TypeError` actually
surfaces at the start of `main`'s loop; observably — stdout, stderr, exit
status — that is the same abort before any output, so it is modelled here.) -/
def pyIterate (v : JValue) : Except PyErr (List JValue) :=
  match v with
  | JValue.arr xs => Except.ok xs
  | JValue.obj fs => Except.ok (fs.map (fun kv => JValue.str kv.1))
  | JValue.str s => Except.ok (s.data.map (fun c => JValue.str ⟨[c]⟩))
  | _ => Except.error PyErr.typeError

/-- `find_url_blocks` (source lines 65–89): locate and parse the embedded
JSON state, navigate the fixed path, and serialise each entry back to JSON
text with `map(json.dumps, video_list)`. -/
def find_url_blocks (text : String) : Except PyErr (List String) := do
  let j ← locateJson text
  let vl ← navigateVideoList j
  let elems ← pyIterate vl
  Except.ok (elems.map json_dumps)

/-! `parse_block` (source lines 91–99) and printing. -/

/-- The fixed watch-URL base the script prepends to the video id. -/
def watchUrlBase : String := "https://www.youtube.com/watch?v="

/-- The title chain of `parse_block`:
`video['playlistVideoRenderer']['title']['runs'][0]['text']`. -/
def titleField (video : JValue) : Except PyErr JValue := do
  let pvr ← subK video ("playlistVideoRenderer")
  let t ← subK pvr ("title")
  let runs ← subK t ("runs")
  let r0 ← subI runs 0
  subK r0 ("text")

/-- The url line of `parse_block`:
`'https://www.youtube.com/watch?v=' + video['playlistVideoRenderer']['videoId']`.
Concatenating a non-string to a `str` raises `TypeError` in Python. -/
def urlField (video : JValue) : Except PyErr String := do
  let pvr ← subK video ("playlistVideoRenderer")
  let vid ← subK pvr ("videoId")
  match vid with
  | JValue.str s => Except.ok (watchUrlBase ++ s)
  | _ => Except.error PyErr.typeError

/-- The time chain of `parse_block`:
`video['playlistVideoRenderer']['lengthText']['simpleText']`. -/
def timeField (video : JValue) : Except PyErr JValue := do
  let pvr ← subK video ("playlistVideoRenderer")
  let lt ← subK pvr ("lengthText")
  subK lt ("simpleText")

/-- `parse_block` (source lines 91–99): re-parse the block's JSON text and
build the tuple `(url, time, title)`.  The source computes `title` first,
then `url`, then `time`, so a block missing several fields raises the
exception of the first chain in that order. -/
def parse_block (text : String) : Except PyErr (String × JValue × JValue) := do
  let video ← json_loads text
  let title ← titleField video
  let url ← urlField video
  let time ← timeField video
  Except.ok (url, time, title)

/-- Hex digit character (lowercase). -/
def hexDig (k : Nat) : Char :=
  if k < 10 then Char.ofNat (48 + k) else Char.ofNat (87 + k)

/-- One character inside a Python `repr` string literal quoted by `q`:
backslash and the quote are escaped, `\n`, `\r`, `\t` get their short
forms, other ASCII control characters become `\xHH`.  (CPython also escapes
non-printable non-ASCII characters; no value a claim touches contains
any.) -/
def pyReprChar (q : Char) (c : Char) : String :=
  if c = '\\' then "\\\\"
  else if c = q then String.mk [ '\\', q]
  else if c = '\n' then "\\n"
  else if c = '\r' then "\\r"
  else if c = '\t' then "\\t"
  else if c.toNat < 32 || c.toNat = 127 then
    "\\x" ++ String.mk [hexDig (c.toNat / 16), hexDig (c.toNat % 16)]
  else String.singleton c

/-- Python `repr` of a string: single-quoted, unless the string contains a
single quote and no double quote, in which case double-quoted. -/
def pyStrRepr (s : String) : String :=
  let q := if s.data.contains (Char.ofNat 39) && !s.data.contains '"' then '"' else Char.ofNat 39
  String.singleton q ++ String.join (s.data.map (pyReprChar q)) ++ String.singleton q

/-- Python `str` of a number loaded from JSON.  An integer lexeme prints as
itself (`-0` normalises to `0`); the JSON grammar already forbids leading
zeros.  A float lexeme is kept verbatim: CPython's float `repr`
normalisation is not modelled, and no claim touches a numeric field. -/
def pyNumOut (lex : String) : String :=
  if lex.data.contains '.' || lex.data.contains 'e' || lex.data.contains 'E' then lex
  else if lex = "-0" then "0" else lex

mutual

/-- Python `repr` of a loaded JSON value, used by `print` for values nested
inside lists and dicts. -/
def pyRepr : JValue → String
  | JValue.null => "None"
  | JValue.bool true => "True"
  | JValue.bool false => "False"
  | JValue.num lex => pyNumOut lex
  | JValue.str s => pyStrRepr s
  | JValue.arr xs => "[" ++ pyReprItems xs ++ "]"
  | JValue.obj fs => "\x7b" ++ pyReprFields fs ++ "\x7d"
termination_by structural v => v

/-- List items of a Python `repr`, comma-space separated. -/
def pyReprItems : List JValue → String
  | [] => ""
  | [x] => pyRepr x
  | x :: y :: xs => pyRepr x ++ ", " ++ pyReprItems (y :: xs)
termination_by structural l => l

/-- Dict members of a Python `repr`, comma-space separated, colon-space
after the key. -/
def pyReprFields : List (String × JValue) → String
  | [] => ""
  | [(k, v)] => pyStrRepr k ++ ": " ++ pyRepr v
  | (k, v) :: f :: fs => pyStrRepr k ++ ": " ++ pyRepr v ++ ", " ++ pyReprFields (f :: fs)
termination_by structural l => l

end

/-- Python `str` of a loaded JSON value, as `print` renders each argument:
a string prints as itself, `None`/`True`/`False` by their names, numbers by
`str`, containers by their `repr`. -/
def pyStr (v : JValue) : String :=
  match v with
  | JValue.str s => s
  | JValue.null => "None"
  | JValue.bool true => "True"
  | JValue.bool false => "False"
  | JValue.num lex => pyNumOut lex
  | JValue.arr xs => pyRepr (JValue.arr xs)
  | JValue.obj fs => pyRepr (JValue.obj fs)

/-- `print_data` (source lines 101–103): `print(*data)` joins the tuple
elements with single spaces, in tuple order `(url, time, title)`, and ends
the line with a newline. -/
def print_data (t : String × JValue × JValue) : String :=
  t.1 ++ " " ++ pyStr t.2.1 ++ " " ++ pyStr t.2.2 ++ "\n"

/-- `print_error` (source lines 142–144): the single line that
`print('error:', message, file=sys.stderr)` would emit.  No caller exists in
the script: `main` installs no exception handler, so this function is dead
code on every failure path. -/
def print_error (message : String) : String :=
  "error:" ++ " " ++ message ++ "\n"

/-! The driver (`main`, source lines 146–157), modelled from the point where
the page text has been loaded (network retrieval is the external Loader
collaborator).  `main` iterates over the blocks, parsing and printing one at
a time; it catches nothing, so the first exception aborts the loop with the
triples printed so far already on stdout. -/

/-- The `for` loop of `main`: the lines printed to stdout, in order, and the
uncaught exception that stopped the loop, if any. -/
def processBlocks : List String → List String × Option PyErr
  | [] => ([], none)
  | b :: bs =>
    match parse_block b with
    | Except.error e => ([], some e)
    | Except.ok t =>
      let rest := processBlocks bs
      (print_data t :: rest.1, rest.2)

/-- `main` on a loaded page: stdout lines and the uncaught exception, if
any. -/
def runMain (page : String) : List String × Option PyErr :=
  match find_url_blocks page with
  | Except.error e => ([], some e)
  | Except.ok blocks => processBlocks blocks

/-- The process exit status: `main` returns 0 and `sys.exit(main())` exits
with it; an uncaught exception makes the interpreter exit with status 1. -/
def exitStatus (o : Option PyErr) : Nat :=
  match o with
  | none => 0
  | some _ => 1

/-- The first line CPython writes to stderr when an exception reaches the
top level uncaught (only the first line of the report is modelled; the rest
of the traceback and the final exception line vary with the failure
site). -/
def tracebackHeadLine : String := "Traceback (most recent call last):"

/-- The first stderr line of a run: nothing on success; the head of the
uncaught-exception traceback on failure (the script never calls
`print_error`, having no exception handler). -/
def stderrHead (o : Option PyErr) : Option String :=
  match o with
  | none => none
  | some _ => some tracebackHeadLine

/-! Concrete test documents.  `mkDoc` lays a state value out the way the
script expects to find it in a page: the embedded-state assignment, the
statement terminator, then the next assignment. -/

/-- One playlist entry as it sits in the `contents` array of the state. -/
def mkEntry (vid ti len : String) : JValue :=
  JValue.obj [("playlistVideoRenderer", JValue.obj
    [("videoId", JValue.str vid),
     ("title", JValue.obj [("runs", JValue.arr [JValue.obj [("text", JValue.str ti)]])]),
     ("lengthText", JValue.obj [("simpleText", JValue.str len)])])]

/-- A playlist entry whose `playlistVideoRenderer` lacks `videoId` (title
and length present). -/
def mkEntryNoVid (ti len : String) : JValue :=
  JValue.obj [("playlistVideoRenderer", JValue.obj
    [("title", JValue.obj [("runs", JValue.arr [JValue.obj [("text", JValue.str ti)]])]),
     ("lengthText", JValue.obj [("simpleText", JValue.str len)])])]

/-- The embedded state shaped along the fixed navigation path, with the
given list at `...playlistVideoListRenderer.contents`. -/
def mkState (entries : List JValue) : JValue :=
  let pvlr := JValue.obj [("playlistVideoListRenderer",
    JValue.obj [("contents", JValue.arr entries)])]
  let isr := JValue.obj [("itemSectionRenderer",
    JValue.obj [("contents", JValue.arr [pvlr])])]
  let slr := JValue.obj [("sectionListRenderer",
    JValue.obj [("contents", JValue.arr [isr])])]
  let tab := JValue.obj [("tabRenderer", JValue.obj [("content", slr)])]
  let tcb := JValue.obj [("twoColumnBrowseResultsRenderer",
    JValue.obj [("tabs", JValue.arr [tab])])]
  JValue.obj [("contents", tcb)]

/-- A current-format page around a given state value. -/
def mkDoc (j : JValue) : String :=
  assignHead ++ json_dumps j ++ ";\n" ++ ytPlayerMarker ++ " = 1;"

/-- Whether `s` starts with `t` (on the character lists, so that it
evaluates in the kernel). -/
def strStarts (s t : String) : Bool :=
  t.data.isPrefixOf s.data

/-! Helper lemmas about the pipeline. -/

/-- A failing `str.index` always raises `ValueError` with the fixed
message. -/
theorem strIndex_error_eq {s sub : String} {e : PyErr}
    (h : strIndex s sub = Except.error e) :
    e = PyErr.valueError ("substring not found") := by
  unfold strIndex at h
  cases hf : findFirstIdx s.data sub.data with
  | some i => rw [hf] at h; cases h
  | none =>
    rw [hf] at h
    injection h with h2
    exact h2.symm

/-- When the locator fails, `find_url_blocks` fails with the same
exception. -/
theorem find_url_blocks_locate_error {text : String} {e : PyErr}
    (h : locateJson text = Except.error e) :
    find_url_blocks text = Except.error e := by
  simp [find_url_blocks, h, bind, Except.bind]

/-- When the locator succeeds but the fixed-path navigation fails,
`find_url_blocks` fails with the navigation exception. -/
theorem find_url_blocks_nav_error {text : String} {j : JValue} {e : PyErr}
    (h1 : locateJson text = Except.ok j)
    (h2 : navigateVideoList j = Except.error e) :
    find_url_blocks text = Except.error e := by
  simp [find_url_blocks, h1, h2, bind, Except.bind]

/-- When the locator succeeds and the fixed path lands on a JSON array,
`find_url_blocks` returns the serialisations of its elements, in order. -/
theorem find_url_blocks_ok {text : String} {j : JValue} {l : List JValue}
    (h1 : locateJson text = Except.ok j)
    (h2 : navigateVideoList j = Except.ok (JValue.arr l)) :
    find_url_blocks text = Except.ok (l.map json_dumps) := by
  simp [find_url_blocks, h1, h2, pyIterate, bind, Except.bind]

/-- When `find_url_blocks` raises, `main`'s loop never runs: no output, the
exception propagates. -/
theorem runMain_blocks_error {text : String} {e : PyErr}
    (h : find_url_blocks text = Except.error e) :
    runMain text = ([], some e) := by
  simp [runMain, h]

/-- The loop of `main` over blocks that all parse: one line is printed per
block, in block order, and the loop continues into `rest`. -/
theorem processBlocks_ok_append (pre : List JValue) (rest : List String)
    (h : ∀ v ∈ pre, ∃ t, parse_block (json_dumps v) = Except.ok t) :
    ∃ ts, List.Forall₂ (fun v t => parse_block (json_dumps v) = Except.ok t) pre ts ∧
      processBlocks (pre.map json_dumps ++ rest) =
        (ts.map print_data ++ (processBlocks rest).1, (processBlocks rest).2) := by
  induction pre with
  | nil => exact ⟨[], List.Forall₂.nil, by simp⟩
  | cons v vs ih =>
    obtain ⟨t, ht⟩ := h v (by simp)
    obtain ⟨ts, hf, hp⟩ := ih (fun w hw => h w (by simp [hw]))
    refine ⟨t :: ts, List.Forall₂.cons ht hf, ?_⟩
    simp [processBlocks, ht, hp]

end Ytlist

namespace Ytlist

set_option maxRecDepth 200000

/-! The claims. -/

/-- Claim C2: for every current-format document whose embedded JSON carries
the list `l` of entries at the fixed navigation path, and whose entries all
parse, the engine emits exactly `l.length` output triples, one per entry, in
the order of the array — no reordering, no deduplication (the `Forall₂`
pairs the i-th output with the i-th entry). -/
theorem entries_emitted_in_order (text : String) (j : JValue) (l : List JValue)
    (h1 : locateJson text = Except.ok j)
    (h2 : navigateVideoList j = Except.ok (JValue.arr l))
    (h3 : ∀ v ∈ l, ∃ t, parse_block (json_dumps v) = Except.ok t) :
    ∃ ts, List.Forall₂ (fun v t => parse_block (json_dumps v) = Except.ok t) l ts ∧
      ts.length = l.length ∧
      runMain text = (ts.map print_data, none) := by
  obtain ⟨ts, hf, hp⟩ := processBlocks_ok_append l [] h3
  refine ⟨ts, hf, hf.length_eq.symm, ?_⟩
  have hb := find_url_blocks_ok h1 h2
  simp [runMain, hb]
  simpa [processBlocks] using hp

/-- A two-entry document exercising claim C2. -/
def c2Doc : String :=
  mkDoc (mkState [mkEntry ("id1") ("One") ("1:11"), mkEntry ("id2") ("Two") ("2:22")])

/-- Witness for `entries_emitted_in_order` on a concrete two-entry
document. -/
theorem entries_emitted_in_order_witness :
    ∃ ts, List.Forall₂ (fun v t => parse_block (json_dumps v) = Except.ok t)
        [mkEntry ("id1") ("One") ("1:11"), mkEntry ("id2") ("Two") ("2:22")] ts ∧
      ts.length = [mkEntry ("id1") ("One") ("1:11"), mkEntry ("id2") ("Two") ("2:22")].length ∧
      runMain c2Doc = (ts.map print_data, none) :=
  entries_emitted_in_order c2Doc
    (mkState [mkEntry ("id1") ("One") ("1:11"), mkEntry ("id2") ("Two") ("2:22")])
    [mkEntry ("id1") ("One") ("1:11"), mkEntry ("id2") ("Two") ("2:22")]
    (by decide) (by decide)
    (by
      intro v hv
      simp only [List.mem_cons, List.not_mem_nil, or_false] at hv
      rcases hv with rfl | rfl
      · exact ⟨(watchUrlBase ++ "id1", JValue.str ("1:11"), JValue.str ("One")), by decide⟩
      · exact ⟨(watchUrlBase ++ "id2", JValue.str ("2:22"), JValue.str ("Two")), by decide⟩)

/-- The round-trip document of claim C3. -/
def c3Doc : String :=
  mkDoc (mkState [mkEntry ("abc123") ("My Video") ("1:02:03")])

/-- Claim C3: on a current-format document whose single entry has videoId
`abc123`, title `My Video` and length `1:02:03`, the run prints exactly one
line, `https://www.youtube.com/watch?v=abc123 1:02:03 My Video` followed by
a newline — the three fields space-separated in the order url, duration,
title — and raises nothing. -/
theorem roundtrip_single_entry :
    runMain c3Doc =
      (["https://www.youtube.com/watch?v=abc123 1:02:03 My Video\n"], none) := by
  decide

/-- Claim C4: whenever either marker substring is absent from the document,
or the substring sliced out between them fails to parse as JSON, the format
locator raises (`str.index` → `ValueError`, `json.loads` →
`JSONDecodeError`; the source defines no exception class of its own, these
are what the spec calls `FormatDetectionError`), and the run emits no
triples. -/
theorem locator_failure_yields_no_triples (text : String) (e : PyErr)
    (h : strIndex text ytDataMarker = Except.error e ∨
         strIndex text ytPlayerMarker = Except.error e ∨
         (∃ i1 i2, strIndex text ytDataMarker = Except.ok i1 ∧
            strIndex text ytPlayerMarker = Except.ok i2 ∧
            json_loads (reSubYtInitialData (pySlice text i1 i2)) = Except.error e)) :
    locateJson text = Except.error e ∧ runMain text = ([], some e) := by
  have hl : locateJson text = Except.error e := by
    rcases h with h | h | ⟨i1, i2, h1, h2, h3⟩
    · simp [locateJson, h, bind, Except.bind]
    · cases hm : strIndex text ytDataMarker with
      | error e2 =>
        have := strIndex_error_eq hm
        have := strIndex_error_eq h
        subst this
        simp [locateJson, hm, bind, Except.bind]
        assumption
      | ok i1 => simp [locateJson, hm, h, bind, Except.bind]
    · simp [locateJson, h1, h2, h3, bind, Except.bind]
  exact ⟨hl, runMain_blocks_error (find_url_blocks_locate_error hl)⟩

/-- A document with both markers whose sliced-out payload is not JSON. -/
def c4Doc : String :=
  "window[\"ytInitialData\"] = NOT VALID JSON;\nwindow[\"ytInitialPlayerResponse\"] = 1;"

/-- Witness for `locator_failure_yields_no_triples`: a document with both
markers present but a payload that is not JSON. -/
theorem locator_failure_yields_no_triples_witness :
    locateJson c4Doc = Except.error PyErr.jsonDecodeError ∧
      runMain c4Doc = ([], some PyErr.jsonDecodeError) :=
  locator_failure_yields_no_triples c4Doc PyErr.jsonDecodeError
    (Or.inr (Or.inr ⟨0, 42, by decide, by decide, by decide⟩))

/-- Claim C5: when the parsed JSON does not match the fixed navigation path
at some step, the block splitter raises (`KeyError` for a missing key,
`IndexError` for an index out of range, `TypeError` for subscripting a
non-container — what the spec calls `StructureNavigationError`), the run
aborts there, and no triples are emitted: no partial traversal or
alternate-path search happens. -/
theorem navigation_failure_yields_no_triples (text : String) (j : JValue) (e : PyErr)
    (h1 : locateJson text = Except.ok j)
    (h2 : navigateVideoList j = Except.error e) :
    runMain text = ([], some e) :=
  runMain_blocks_error (find_url_blocks_nav_error h1 h2)

/-- A current-format document whose state lacks
`twoColumnBrowseResultsRenderer`. -/
def c5Doc : String :=
  mkDoc (JValue.obj [("contents", JValue.obj [("responseContext", JValue.null)])])

/-- Witness for `navigation_failure_yields_no_triples` on a document whose
path breaks at the second key. -/
theorem navigation_failure_yields_no_triples_witness :
    runMain c5Doc = ([], some (PyErr.keyError ("twoColumnBrowseResultsRenderer"))) :=
  navigation_failure_yields_no_triples c5Doc
    (JValue.obj [("contents", JValue.obj [("responseContext", JValue.null)])])
    (PyErr.keyError ("twoColumnBrowseResultsRenderer"))
    (by decide) (by decide)

/-- Claim C8: a valid document whose `contents` array at the fixed path is
empty yields no output lines and no exception, and the process exits with
status zero. -/
theorem empty_playlist_success (text : String) (j : JValue)
    (h1 : locateJson text = Except.ok j)
    (h2 : navigateVideoList j = Except.ok (JValue.arr [])) :
    runMain text = ([], none) ∧ exitStatus (runMain text).2 = 0 := by
  have hb := find_url_blocks_ok h1 h2
  have hr : runMain text = ([], none) := by
    simp [runMain, hb, processBlocks]
  exact ⟨hr, by simp [hr, exitStatus]⟩

/-- A current-format document with an empty playlist. -/
def c8Doc : String := mkDoc (mkState [])

/-- Witness for `empty_playlist_success` on a concrete empty playlist. -/
theorem empty_playlist_success_witness :
    runMain c8Doc = ([], none) ∧ exitStatus (runMain c8Doc).2 = 0 :=
  empty_playlist_success c8Doc (mkState []) (by decide) (by decide)

/-- A legacy server-rendered playlist page: markup rows with
`data-video-id`, `data-title` and a timestamp cell, and no embedded JSON
state.  This is the older of the two formats the spec describes. -/
def c1LegacyDoc : String :=
  "<html><body><table><tr class=\"pl-video yt-uix-tile\" data-video-id=\"xyz\" data-title=\"Hello\"><td class=\"timestamp\"><span>2:30</span></td></tr></table></body></html>"

/-- Claim C1 counterexample: on a legacy markup document the engine does not
extract the row's triple — the very first step, `text.index` on the
embedded-state marker, raises `ValueError`, and nothing is emitted.  The
code has no markup-row extraction and no layout dispatch (`lxml.html` is
imported but never used). -/
theorem legacy_markup_not_extracted :
    runMain c1LegacyDoc = ([], some (PyErr.valueError ("substring not found"))) := by
  decide

/-- A well-formed current-format document with one entry. -/
def c1CurrentDoc : String :=
  mkDoc (mkState [mkEntry ("vid01") ("First") ("4:05")])

/-- Claim C1 (amended): the engine supports only the current layout.  Any
document in which the embedded-state marker does not occur — legacy markup
documents included — fails with `ValueError` from the marker search and
yields no triples; a current-format document is extracted through the
embedded JSON state blob. -/
theorem only_current_format_supported :
    (∀ text : String, findFirstIdx text.data ytDataMarker.data = none →
       runMain text = ([], some (PyErr.valueError ("substring not found")))) ∧
    runMain c1CurrentDoc =
      (["https://www.youtube.com/watch?v=vid01 4:05 First\n"], none) := by
  constructor
  · intro text h
    apply runMain_blocks_error
    apply find_url_blocks_locate_error
    simp [locateJson, strIndex, h, bind, Except.bind]
  · decide

/-- A document without the embedded-state marker. -/
def c1NoMarkerDoc : String := "<html><p>nothing embedded here</p></html>"

/-- Witness for `only_current_format_supported` at a concrete markerless
document. -/
theorem only_current_format_supported_witness :
    runMain c1NoMarkerDoc = ([], some (PyErr.valueError ("substring not found"))) :=
  only_current_format_supported.1 c1NoMarkerDoc (by decide)

/-- A two-entry document whose first entry lacks `videoId`. -/
def c6Doc : String :=
  mkDoc (mkState [mkEntryNoVid ("Broken") ("0:30"), mkEntry ("ok22") ("Fine") ("0:40")])

/-- Claim C6 counterexample: the first block's missing `videoId` aborts the
whole run — the second, well-formed block is never parsed and its triple is
never printed, so the failure is fatal to the pipeline, not per-block. -/
theorem field_error_kills_whole_run :
    runMain c6Doc = ([], some (PyErr.keyError ("videoId"))) := by
  decide

/-- Claim C6 (amended): a block missing a required field raises `KeyError`
naming that field (what the spec calls `FieldExtractionError`), and the
failure is fatal: the triples of the blocks before it are already printed,
the failing block stops the loop, and no later block is processed. -/
theorem field_error_aborts_pipeline (text : String) (j : JValue) (pre : List JValue)
    (bad : JValue) (post : List JValue) (e : PyErr)
    (h1 : locateJson text = Except.ok j)
    (h2 : navigateVideoList j = Except.ok (JValue.arr (pre ++ bad :: post)))
    (h3 : ∀ v ∈ pre, ∃ t, parse_block (json_dumps v) = Except.ok t)
    (h4 : parse_block (json_dumps bad) = Except.error e) :
    ∃ ts, List.Forall₂ (fun v t => parse_block (json_dumps v) = Except.ok t) pre ts ∧
      runMain text = (ts.map print_data, some e) := by
  obtain ⟨ts, hf, hp⟩ := processBlocks_ok_append pre (json_dumps bad :: post.map json_dumps) h3
  refine ⟨ts, hf, ?_⟩
  have hb := find_url_blocks_ok h1 h2
  have hrest : processBlocks (json_dumps bad :: post.map json_dumps) = ([], some e) := by
    simp [processBlocks, h4]
  rw [hrest] at hp
  simp only [List.append_nil] at hp
  simp [runMain, hb, List.map_append, List.map_cons]
  exact hp

/-- A three-entry document: good, missing `videoId`, good. -/
def c6AbortDoc : String :=
  mkDoc (mkState [mkEntry ("aa") ("A") ("1:00"), mkEntryNoVid ("B") ("2:00"),
    mkEntry ("cc") ("C") ("3:00")])

/-- Witness for `field_error_aborts_pipeline`: first entry printed, second
raises `KeyError` on `videoId`, third never processed. -/
theorem field_error_aborts_pipeline_witness :
    ∃ ts, List.Forall₂ (fun v t => parse_block (json_dumps v) = Except.ok t)
        [mkEntry ("aa") ("A") ("1:00")] ts ∧
      runMain c6AbortDoc = (ts.map print_data, some (PyErr.keyError ("videoId"))) :=
  field_error_aborts_pipeline c6AbortDoc
    (mkState [mkEntry ("aa") ("A") ("1:00"), mkEntryNoVid ("B") ("2:00"),
      mkEntry ("cc") ("C") ("3:00")])
    [mkEntry ("aa") ("A") ("1:00")] (mkEntryNoVid ("B") ("2:00"))
    [mkEntry ("cc") ("C") ("3:00")]
    (PyErr.keyError ("videoId"))
    (by decide) (by decide)
    (by
      intro v hv
      simp only [List.mem_cons, List.not_mem_nil, or_false] at hv
      subst hv
      exact ⟨("https://www.youtube.com/watch?v=aa", JValue.str ("1:00"), JValue.str ("A")),
        by decide⟩)
    (by decide)

/-- A document whose player-response marker is missing. -/
def c7Doc : String :=
  "window[\"ytInitialData\"] only, the player marker is missing"

/-- Claim C7 counterexample: on a failing run the process does exit
non-zero, but what reaches the error stream is CPython's multi-line
uncaught-exception traceback — its first line does not start with
`error:`.  The script's `print_error` would produce such a line but is
never called: `main` has no exception handler. -/
theorem error_report_is_traceback :
    exitStatus (runMain c7Doc).2 = 1 ∧
    stderrHead (runMain c7Doc).2 = some tracebackHeadLine ∧
    strStarts tracebackHeadLine ("error:") = false := by
  decide

/-- Claim C7 (amended): every failing run exits with status 1, and the
error stream carries the uncaught-exception traceback, whose first line is
not `error:`-prefixed. -/
theorem failing_run_exits_nonzero (text : String) (e : PyErr)
    (h : (runMain text).2 = some e) :
    exitStatus (runMain text).2 = 1 ∧
    stderrHead (runMain text).2 = some tracebackHeadLine ∧
    strStarts tracebackHeadLine ("error:") = false := by
  rw [h]
  exact ⟨rfl, rfl, by decide⟩

/-- A failing document for the C7 witness. -/
def c7FailDoc : String := "<html>no embedded state</html>"

/-- Witness for `failing_run_exits_nonzero` at a concrete failing
document. -/
theorem failing_run_exits_nonzero_witness :
    exitStatus (runMain c7FailDoc).2 = 1 ∧
    stderrHead (runMain c7FailDoc).2 = some tracebackHeadLine ∧
    strStarts tracebackHeadLine ("error:") = false :=
  failing_run_exits_nonzero c7FailDoc (PyErr.valueError ("substring not found"))
    (by decide)

/-- A success of the url line of `parse_block` always produced the fixed
watch base followed by the string sitting in the block's `videoId` field. -/
theorem urlField_ok_shape {video : JValue} {u : String}
    (h : urlField video = Except.ok u) :
    ∃ pvr s, subK video ("playlistVideoRenderer") = Except.ok pvr ∧
      subK pvr ("videoId") = Except.ok (JValue.str s) ∧ u = watchUrlBase ++ s := by
  unfold urlField at h
  cases hp : subK video ("playlistVideoRenderer") with
  | error e0 => rw [hp] at h; simp [bind, Except.bind] at h
  | ok pvr =>
    rw [hp] at h
    simp only [bind, Except.bind] at h
    cases hv : subK pvr ("videoId") with
    | error e0 => rw [hv] at h; simp at h
    | ok vid =>
      rw [hv] at h
      cases vid with
      | str s =>
        refine ⟨pvr, s, rfl, hv, ?_⟩
        injection h with h2
        exact h2.symm
      | null => simp at h
      | bool b => simp at h
      | num lex => simp at h
      | arr xs => simp at h
      | obj fs => simp at h

/-- A successful `parse_block` run decomposes into its chains; in
particular the url chain succeeded on the loaded block. -/
theorem parse_block_ok_parts {text : String} {url : String} {time title : JValue}
    (h : parse_block text = Except.ok (url, time, title)) :
    ∃ video, json_loads text = Except.ok video ∧ urlField video = Except.ok url := by
  unfold parse_block at h
  cases hj : json_loads text with
  | error e0 => rw [hj] at h; simp [bind, Except.bind] at h
  | ok video =>
    rw [hj] at h
    simp only [bind, Except.bind] at h
    cases ht : titleField video with
    | error e0 => rw [ht] at h; simp at h
    | ok t1 =>
      rw [ht] at h
      cases hu : urlField video with
      | error e0 => rw [hu] at h; simp at h
      | ok u =>
        rw [hu] at h
        cases htm : timeField video with
        | error e0 => rw [htm] at h; simp at h
        | ok tm =>
          rw [htm] at h
          simp only [Except.ok.injEq, Prod.mk.injEq] at h
          exact ⟨video, rfl, by rw [hu, h.1]⟩

/-- A block with `videoId` present but empty. -/
def c9Block : String := json_dumps (mkEntry ("") ("T") ("0:10"))

/-- Claim C9 counterexample: a block whose `videoId` field is the empty
string parses successfully, and the emitted url is the bare watch base with
nothing appended — `video_id` can be empty for a successfully parsed
record. -/
theorem empty_video_id_parses :
    parse_block c9Block =
      Except.ok ("https://www.youtube.com/watch?v=", JValue.str ("0:10"),
        JValue.str ("T")) := by
  decide

/-- Claim C9 (amended): every successfully parsed block's url is exactly
the fixed base `https://www.youtube.com/watch?v=` concatenated with the
string in the block's `videoId` field, and a block whose url chain fails —
in particular one whose `videoId` is absent — makes `parse_block` fail with
that exception rather than emit a malformed url.  The `video_id` may,
however, be the empty string when the field is present and empty. -/
theorem url_always_from_video_id :
    (∀ (text : String) (url : String) (time title : JValue),
       parse_block text = Except.ok (url, time, title) →
       ∃ video pvr vid, json_loads text = Except.ok video ∧
         subK video ("playlistVideoRenderer") = Except.ok pvr ∧
         subK pvr ("videoId") = Except.ok (JValue.str vid) ∧
         url = watchUrlBase ++ vid) ∧
    (∀ (text : String) (video t : JValue) (e : PyErr),
       json_loads text = Except.ok video → titleField video = Except.ok t →
       urlField video = Except.error e → parse_block text = Except.error e) := by
  constructor
  · intro text url time title h
    obtain ⟨video, hj, hu⟩ := parse_block_ok_parts h
    obtain ⟨pvr, s, hp, hv, hs⟩ := urlField_ok_shape hu
    exact ⟨video, pvr, s, hj, hp, hv, hs⟩
  · intro text video t e hj ht hu
    unfold parse_block
    rw [hj]
    simp only [bind, Except.bind]
    rw [ht, hu]

/-- A block whose `playlistVideoRenderer` lacks `videoId`. -/
def c9AbsentBlock : String := json_dumps (mkEntryNoVid ("W") ("0:09"))

/-- Witness for `url_always_from_video_id`: a parsed block's url is the
watch base followed by the content of its `videoId` field, and a block
without `videoId` fails with `KeyError`. -/
theorem url_always_from_video_id_witness :
    (∃ video pvr vid,
       json_loads (json_dumps (mkEntry ("w9") ("W") ("0:09"))) = Except.ok video ∧
       subK video ("playlistVideoRenderer") = Except.ok pvr ∧
       subK pvr ("videoId") = Except.ok (JValue.str vid) ∧
       "https://www.youtube.com/watch?v=w9" = watchUrlBase ++ vid) ∧
    parse_block c9AbsentBlock = Except.error (PyErr.keyError ("videoId")) :=
  ⟨url_always_from_video_id.1 (json_dumps (mkEntry ("w9") ("W") ("0:09")))
      ("https://www.youtube.com/watch?v=w9") (JValue.str ("0:09")) (JValue.str ("W"))
      (by decide),
   url_always_from_video_id.2 c9AbsentBlock (mkEntryNoVid ("W") ("0:09"))
      (JValue.str ("W")) (PyErr.keyError ("videoId"))
      (by decide) (by decide) (by decide)⟩

/-- A block with an empty `videoId`, for claim C10. -/
def c10Block : String := json_dumps (mkEntry ("") ("Empty Id") ("1:02"))

/-- Claim C10: a block whose `playlistVideoRenderer` holds `videoId` equal
to the empty string parses successfully, and the triple's url is exactly the
bare prefix `https://www.youtube.com/watch?v=` with nothing appended — no
check rejects an empty video identifier. -/
theorem bare_prefix_on_empty_video_id :
    parse_block c10Block =
      Except.ok ("https://www.youtube.com/watch?v=", JValue.str ("1:02"),
        JValue.str ("Empty Id")) := by
  decide

end Ytlist
